import Mathlib

/-!
Shallow embedding of the `GLSL` WebGL2 micro-framework class
(`src/unnamed/part_003`, the library entry `glsl.ts`).

Modelling conventions:
* WebGL object handles (`WebGLBuffer`, `WebGLTexture`, `WebGLShader`,
  `WebGLProgram`, `WebGLFramebuffer`) are natural-number ids, allocated from
  per-kind counters in `GLState` (fresh ids model distinct JS objects).
* Calls into the `WebGL2RenderingContext` are recorded as a trace of `GLCmd`
  values, in the order the source issues them; `gl.activeTexture (gl.TEXTURE0 + u)`
  is recorded by its unit index `u`.
* Host behaviour that the class only observes (compile/link status, info logs,
  uniform/attribute locations, framebuffer completeness, pixel contents,
  canvas size, the clock) is an oracle record `GLEnv`.
* JS numbers are modelled as `Rat` (no claim here depends on float rounding);
  JS string-keyed objects are association lists in insertion order, which is
  their iteration order; a thrown JS exception is an `Except.error` paired
  with the state at the throw point (JS exceptions do not roll back effects).
-/

/-- GLSL shader stage (`gl.VERTEX_SHADER` / `gl.FRAGMENT_SHADER`). -/
inductive ShaderType where
  | vertex
  | fragment
deriving DecidableEq, Repr

/-- The seven WebGL drawing primitives accepted by `GraphicsProgramConfig.primitive`. -/
inductive Primitive where
  | POINTS
  | LINES
  | LINE_LOOP
  | LINE_STRIP
  | TRIANGLES
  | TRIANGLE_STRIP
  | TRIANGLE_FAN
deriving DecidableEq, Repr

/-- One recorded call into the `WebGL2RenderingContext`. -/
inductive GLCmd where
  | createBuffer (buffer : Nat)
  | bindBuffer (buffer : Nat)
  | bufferData (data : List Rat)
  | createShader (type : ShaderType) (shader : Nat)
  | shaderSource (shader : Nat) (source : String)
  | compileShader (shader : Nat)
  | deleteShader (shader : Nat)
  | createProgram (program : Nat)
  | attachShader (program shader : Nat)
  | linkProgram (program : Nat)
  | deleteProgram (program : Nat)
  | useProgram (program : Nat)
  | enableVertexAttribArray (location : Int)
  | vertexAttribPointer (location : Int) (size : Nat)
  | activeTexture (unit : Nat)
  | bindTexture (texture : Option Nat)
  | uniform1i (location : Option Nat) (value : Nat)
  | uniform1f (location : Nat) (value : Rat)
  | uniform2fv (location : Nat) (value : List Rat)
  | uniform3fv (location : Nat) (value : List Rat)
  | uniform4fv (location : Nat) (value : List Rat)
  | uniformMatrix3fv (location : Nat) (transpose : Bool) (value : List Rat)
  | uniformMatrix4fv (location : Nat) (transpose : Bool) (value : List Rat)
  | warn (name : String) (length : Nat)
  | bindFramebuffer (framebuffer : Option Nat)
  | drawArrays (primitive : Primitive) (first : Nat) (count : Int)
  | createFramebuffer (framebuffer : Nat)
  | framebufferTexture2D (texture : Nat)
  | readPixels (width height : Nat)
  | deleteFramebuffer (framebuffer : Nat)
deriving DecidableEq, Repr

/-- Is this command the `console.warn` emitted by the uniform dispatch default branch? -/
def GLCmd.isWarn : GLCmd → Bool
  | .warn _ _ => true
  | _ => false

/-- State of the host graphics context: fresh-id counters for each object kind,
the current `FRAMEBUFFER` binding, the set of live (created, not deleted)
framebuffers, and the trace of issued calls. -/
structure GLState where
  nextBuffer : Nat
  nextShader : Nat
  nextProgram : Nat
  nextFramebuffer : Nat
  boundFramebuffer : Option Nat
  framebuffers : List Nat
  trace : List GLCmd
deriving DecidableEq, Repr

/-- Host-behaviour oracle: everything the class reads back from the WebGL
context or the browser, as a function of what it handed over. -/
structure GLEnv where
  compileOk : ShaderType → String → Bool
  shaderInfoLog : ShaderType → String → String
  linkOk : String → String → Bool
  programInfoLog : String → String → String
  uniformLoc : Nat → String → Option Nat
  attribLoc : Nat → String → Int
  fbStatusComplete : Nat → Bool
  pixel : Nat → Nat → Nat → Nat → Rat
  canvasWidth : Rat
  canvasHeight : Rat
  nowMs : Rat

/-- State of one `GLSL` class instance: the context, the `programCache`
(`Map<string, WebGLProgram>` in insertion order) and `startTime`. -/
structure GLSLState where
  gl : GLState
  programCache : List (String × Nat)
  startTime : Rat
deriving DecidableEq, Repr

/-- The state of a freshly constructed `GLSL` instance (empty cache). -/
def initState (startTime : Rat) : GLSLState :=
  { gl := { nextBuffer := 0, nextShader := 0, nextProgram := 0, nextFramebuffer := 0,
            boundFramebuffer := none, framebuffers := [], trace := [] },
    programCache := [],
    startTime := startTime }

/-- `UniformValue = number | number[] | Float32Array`; arrays and
`Float32Array`s take the same dispatch branch, so both are `arr`. -/
inductive UniformValue where
  | num (x : Rat)
  | arr (xs : List Rat)
deriving DecidableEq, Repr

/-- `AttributeInfo`: a buffer handle plus component count. -/
structure AttributeInfo where
  buffer : Nat
  size : Nat
deriving DecidableEq, Repr

/-- `GraphicsProgramConfig`. Optional TS fields become `Option`;
`output?: WebGLFramebuffer | null` is `Option (Option Nat)` (unset / null / handle). -/
structure GraphicsProgramConfig where
  vertexShader : String
  fragmentShader : String
  attributes : List (String × AttributeInfo)
  uniforms : List (String × UniformValue)
  textures : List (String × Nat)
  count : Int
  primitive : Option Primitive := none
  output : Option (Option Nat) := none
deriving DecidableEq, Repr

/-- Key lookup in a JS object modelled as an association list
(first entry wins; JS objects have unique keys). -/
def alookup {α : Type} (k : String) : List (String × α) → Option α
  | [] => none
  | (k', v) :: t => if k' = k then some v else alookup k t

/-- Concatenation of a list of command lists. -/
def joinAll {α : Type} : List (List α) → List α
  | [] => []
  | l :: ls => l ++ joinAll ls

/-- Pair each list element with its index, counting from `n`. -/
def enumFromN {α : Type} (n : Nat) : List α → List (Nat × α)
  | [] => []
  | a :: t => (n, a) :: enumFromN (n + 1) t

/-- JS property write `obj[k] = v`: overwrite in place if the key exists,
else append (insertion order preserved). -/
def jsRecordSet {α : Type} (obj : List (String × α)) (k : String) (v : α) :
    List (String × α) :=
  if k ∈ obj.map Prod.fst then
    obj.map fun p => if p.1 = k then (k, v) else p
  else obj ++ [(k, v)]

/-- JS object spread `{...base, ...ext}`: write every entry of `ext` over
`base` in order (later writes win). -/
def jsSpread {α : Type} (base ext : List (String × α)) : List (String × α) :=
  ext.foldl (fun acc p => jsRecordSet acc p.1 p.2) base

/-- JS `config.output || null`: only an actual framebuffer handle is truthy. -/
def jsOrNull (o : Option (Option Nat)) : Option Nat :=
  match o with
  | some (some fb) => some fb
  | _ => none

/-- `_createShader(type, source)`: create, attach source, compile; on compile
failure read the info log, delete the shader and throw. -/
def _createShader (env : GLEnv) (gl : GLState) (type : ShaderType) (source : String) :
    Except String Nat × GLState :=
  let shader := gl.nextShader
  let gl1 := { gl with
    nextShader := shader + 1,
    trace := gl.trace ++
      [GLCmd.createShader type shader, GLCmd.shaderSource shader source, GLCmd.compileShader shader] }
  if env.compileOk type source then
    (.ok shader, gl1)
  else
    (.error ("Error compiling shader: " ++ env.shaderInfoLog type source),
     { gl1 with trace := gl1.trace ++ [GLCmd.deleteShader shader] })

/-- `_getProgram(vertexSource, fragmentSource)`: cache lookup under the key
`vertexSource + fragmentSource`; on a miss compile both stages, link, and on
success delete the stage shaders and cache the program. -/
def _getProgram (env : GLEnv) (st : GLSLState) (vertexSource fragmentSource : String) :
    Except String Nat × GLSLState :=
  let cacheKey := vertexSource ++ fragmentSource
  match alookup cacheKey st.programCache with
  | some prog => (.ok prog, st)
  | none =>
    match _createShader env st.gl .vertex vertexSource with
    | (.error e, gl1) => (.error e, { st with gl := gl1 })
    | (.ok vsh, gl1) =>
      match _createShader env gl1 .fragment fragmentSource with
      | (.error e, gl2) => (.error e, { st with gl := gl2 })
      | (.ok fsh, gl2) =>
        let program := gl2.nextProgram
        let gl3 := { gl2 with
          nextProgram := program + 1,
          trace := gl2.trace ++
            [GLCmd.createProgram program, GLCmd.attachShader program vsh,
             GLCmd.attachShader program fsh, GLCmd.linkProgram program] }
        if env.linkOk vertexSource fragmentSource then
          let gl4 := { gl3 with
            trace := gl3.trace ++ [GLCmd.deleteShader vsh, GLCmd.deleteShader fsh] }
          (.ok program,
           { st with gl := gl4, programCache := st.programCache ++ [(cacheKey, program)] })
        else
          (.error ("Error linking program: " ++ env.programInfoLog vertexSource fragmentSource),
           { st with gl := { gl3 with trace := gl3.trace ++ [GLCmd.deleteProgram program] } })

/-- The uniform upload for one named value at its resolved location
(`if (location) { ... }` with the `typeof` test and the length `switch`). -/
def dispatchUniform (location : Option Nat) (name : String) (value : UniformValue) :
    List GLCmd :=
  match location with
  | none => []
  | some l =>
    match value with
    | .num x => [GLCmd.uniform1f l x]
    | .arr xs =>
      match xs.length with
      | 2 => [GLCmd.uniform2fv l xs]
      | 3 => [GLCmd.uniform3fv l xs]
      | 4 => [GLCmd.uniform4fv l xs]
      | 9 => [GLCmd.uniformMatrix3fv l false xs]
      | 16 => [GLCmd.uniformMatrix4fv l false xs]
      | _ => [GLCmd.warn name xs.length]

/-- The attribute-binding loop of `draw` (step 2): skip attributes whose
location is `-1`, else bind the buffer, enable the slot and describe it as
tightly packed floats. -/
def attributeCmds (env : GLEnv) (program : Nat)
    (attributes : List (String × AttributeInfo)) : List GLCmd :=
  joinAll (attributes.map fun p =>
    let location := env.attribLoc program p.1
    if location = -1 then []
    else
      [GLCmd.bindBuffer p.2.buffer, GLCmd.enableVertexAttribArray location,
       GLCmd.vertexAttribPointer location p.2.size])

/-- The texture-binding loop of `draw` (step 3): sequential units from the
running `textureUnit` counter, one per entry. -/
def bindTextures (env : GLEnv) (program : Nat) :
    List (String × Nat) → Nat → List GLCmd
  | [], _ => []
  | (name, tex) :: rest, unit =>
    [GLCmd.activeTexture unit, GLCmd.bindTexture (some tex),
     GLCmd.uniform1i (env.uniformLoc program name) unit] ++
    bindTextures env program rest (unit + 1)

/-- The uniform loop of `draw`: dispatch each entry of the merged uniform
object at its looked-up location. -/
def uniformCmds (env : GLEnv) (program : Nat)
    (uniforms : List (String × UniformValue)) : List GLCmd :=
  joinAll (uniforms.map fun p => dispatchUniform (env.uniformLoc program p.1) p.1 p.2)

/-- The two built-in uniforms supplied by `draw`:
`u_time = (Date.now() - this.startTime) / 1000.0` and
`u_resolution = [canvas.width, canvas.height]`. -/
def builtinUniforms (env : GLEnv) (startTime : Rat) : List (String × UniformValue) :=
  [("u_time", .num ((env.nowMs - startTime) / 1000)),
   ("u_resolution", .arr [env.canvasWidth, env.canvasHeight])]

/-- The merged uniform object
`{ u_time: ..., u_resolution: ..., ...config.uniforms }`. -/
def mergedUniforms (env : GLEnv) (startTime : Rat) (config : GraphicsProgramConfig) :
    List (String × UniformValue) :=
  jsSpread (builtinUniforms env startTime) config.uniforms

/-- `draw(config)`: resolve and use the program, merge uniforms, bind
attributes, bind textures to sequential units, upload uniforms, select the
output framebuffer (`config.output || null`) and submit
`drawArrays(primitive, 0, count)`. -/
def draw (env : GLEnv) (st : GLSLState) (config : GraphicsProgramConfig) :
    Except String Unit × GLSLState :=
  match _getProgram env st config.vertexShader config.fragmentShader with
  | (.error e, st1) => (.error e, st1)
  | (.ok program, st1) =>
    let gl1 := { st1.gl with trace := st1.gl.trace ++ [GLCmd.useProgram program] }
    let uniforms := mergedUniforms env st1.startTime config
    let gl2 := { gl1 with trace := gl1.trace ++ attributeCmds env program config.attributes }
    let gl3 := { gl2 with trace := gl2.trace ++ bindTextures env program config.textures 0 }
    let gl4 := { gl3 with trace := gl3.trace ++ uniformCmds env program uniforms }
    let target := jsOrNull config.output
    let gl5 := { gl4 with
      trace := gl4.trace ++ [GLCmd.bindFramebuffer target],
      boundFramebuffer := target }
    let prim := match config.primitive with | some p => p | none => Primitive.TRIANGLES
    let gl6 := { gl5 with trace := gl5.trace ++ [GLCmd.drawArrays prim 0 config.count] }
    (.ok (), { st1 with gl := gl6 })

/-- `createBuffer(data)`: create a buffer, bind it to `ARRAY_BUFFER` and
upload the data with `STATIC_DRAW`. -/
def createBuffer (st : GLSLState) (data : List Rat) : Nat × GLSLState :=
  let buffer := st.gl.nextBuffer
  (buffer,
   { st with gl := { st.gl with
      nextBuffer := buffer + 1,
      trace := st.gl.trace ++ [GLCmd.createBuffer buffer, GLCmd.bindBuffer buffer, GLCmd.bufferData data] } })

/-- The fixed internal vertex shader of `display` (exact template-literal text). -/
def displayVertexSource : String :=
  "#version 300 es\n      in vec2 a_position;\n      out vec2 v_texCoord;\n      void main() \x7b\n          v_texCoord = a_position * 0.5 + 0.5;\n          gl_Position = vec4(a_position, 0.0, 1.0);\n      \x7d"

/-- The fixed internal fragment shader of `display` (exact template-literal text). -/
def displayFragmentSource : String :=
  "#version 300 es\n      precision highp float;\n      in vec2 v_texCoord;\n      out vec4 fragColor;\n      uniform sampler2D u_texture;\n      void main() \x7b\n          fragColor = texture(u_texture, v_texCoord);\n      \x7d"

/-- `display(texture)`: build the fixed shader pair, allocate the quad buffer
and issue one `draw` over a 4-vertex triangle strip to the canvas. -/
def display (env : GLEnv) (st : GLSLState) (texture : Nat) :
    Except String Unit × GLSLState :=
  let pr := createBuffer st [-1, -1, 1, -1, -1, 1, 1, 1]
  draw env pr.2
    { vertexShader := displayVertexSource,
      fragmentShader := displayFragmentSource,
      attributes := [("a_position", { buffer := pr.1, size := 2 })],
      textures := [("u_texture", texture)],
      uniforms := [],
      count := 4,
      primitive := some .TRIANGLE_STRIP,
      output := some none }

/-- `readData(texture, width, height)`: attach the texture to a fresh
framebuffer; if incomplete, throw without any cleanup; else read back
`width*height*4` floats, unbind and delete the framebuffer. -/
def readData (env : GLEnv) (st : GLSLState) (texture : Nat) (width height : Nat) :
    Except String (List Rat) × GLSLState :=
  let fbo := st.gl.nextFramebuffer
  let gl1 := { st.gl with
    nextFramebuffer := fbo + 1,
    framebuffers := st.gl.framebuffers ++ [fbo],
    boundFramebuffer := some fbo,
    trace := st.gl.trace ++
      [GLCmd.createFramebuffer fbo, GLCmd.bindFramebuffer (some fbo), GLCmd.framebufferTexture2D texture] }
  if env.fbStatusComplete texture then
    let buffer := (List.range (width * height * 4)).map (env.pixel texture width height)
    let gl2 := { gl1 with
      trace := gl1.trace ++ [GLCmd.readPixels width height, GLCmd.bindFramebuffer none, GLCmd.deleteFramebuffer fbo],
      boundFramebuffer := none,
      framebuffers := gl1.framebuffers.filter (fun f => f ≠ fbo) }
    (.ok buffer, { st with gl := gl2 })
  else
    (.error "Framebuffer is not complete for reading data.", { st with gl := gl1 })

/-! ## Association-list lemmas -/

/-- Looking up a key absent from the key list yields `none`. -/
theorem alookup_eq_none_of_not_mem {α : Type} (k : String) (l : List (String × α))
    (h : k ∉ l.map Prod.fst) : alookup k l = none := by
  induction l with
  | nil => rfl
  | cons hd t ih =>
    obtain ⟨a, b⟩ := hd
    simp only [List.map_cons, List.mem_cons] at h
    push_neg at h
    simp only [alookup, if_neg (Ne.symm h.1), ih h.2]

/-- A successful lookup means the key occurs in the key list. -/
theorem mem_of_alookup_some {α : Type} {k : String} {l : List (String × α)} {v : α}
    (h : alookup k l = some v) : k ∈ l.map Prod.fst := by
  induction l with
  | nil => simp [alookup] at h
  | cons hd t ih =>
    obtain ⟨a, b⟩ := hd
    simp only [alookup] at h
    by_cases hk : a = k
    · simp [hk]
    · rw [if_neg hk] at h
      simp [ih h]

/-- Lookup distributes over append when the key misses the first list. -/
theorem alookup_append_of_none {α : Type} {k : String} {l1 : List (String × α)}
    (l2 : List (String × α)) (h : alookup k l1 = none) :
    alookup k (l1 ++ l2) = alookup k l2 := by
  induction l1 with
  | nil => rfl
  | cons hd t ih =>
    obtain ⟨a, b⟩ := hd
    simp only [alookup] at h ⊢
    by_cases hk : a = k
    · simp [hk] at h
    · rw [if_neg hk] at h ⊢
      exact ih h

/-- Lookup distributes over append when the key hits the first list. -/
theorem alookup_append_of_some {α : Type} {k : String} {l1 : List (String × α)} {v : α}
    (l2 : List (String × α)) (h : alookup k l1 = some v) :
    alookup k (l1 ++ l2) = some v := by
  induction l1 with
  | nil => simp [alookup] at h
  | cons hd t ih =>
    obtain ⟨a, b⟩ := hd
    simp only [alookup] at h ⊢
    by_cases hk : a = k
    · rw [if_pos hk] at h ⊢; exact h
    · rw [if_neg hk] at h ⊢
      exact ih h

/-- Replacing the value stored under `k` does not disturb other keys. -/
theorem alookup_replace_of_ne {α : Type} (t : List (String × α)) (k : String) (v : α)
    (k' : String) (hne : k ≠ k') :
    alookup k' (t.map fun p => if p.1 = k then (k, v) else p) = alookup k' t := by
  induction t with
  | nil => rfl
  | cons hd t ih =>
    obtain ⟨a, b⟩ := hd
    rw [List.map_cons]
    by_cases ha : a = k
    · subst ha
      have hhd : (if ((a, b) : String × α).1 = a then ((a, v) : String × α) else (a, b)) = (a, v) := by
        simp
      rw [hhd]
      simp [alookup, hne, ih]
    · have hhd : (if ((a, b) : String × α).1 = k then ((k, v) : String × α) else (a, b)) = (a, b) := by
        simp [ha]
      rw [hhd]
      by_cases ha' : a = k'
      · simp [alookup, ha', ih]
      · simp [alookup, ha', ih]

/-- Replacing the value stored under an existing key makes lookup return it. -/
theorem alookup_replace_self {α : Type} (t : List (String × α)) (k : String) (v : α)
    (hmem : k ∈ t.map Prod.fst) :
    alookup k (t.map fun p => if p.1 = k then (k, v) else p) = some v := by
  induction t with
  | nil => simp at hmem
  | cons hd t ih =>
    obtain ⟨a, b⟩ := hd
    simp only [List.map_cons, List.mem_cons] at hmem
    by_cases ha : a = k
    · subst ha
      rw [List.map_cons]
      have hhd : (if ((a, b) : String × α).1 = a then ((a, v) : String × α) else (a, b)) = (a, v) := by
        simp
      rw [hhd]
      simp [alookup]
    · have hm : k ∈ t.map Prod.fst := hmem.resolve_left fun hh => ha hh.symm
      rw [List.map_cons]
      have hhd : (if ((a, b) : String × α).1 = k then ((k, v) : String × α) else (a, b)) = (a, b) := by
        simp [ha]
      rw [hhd]
      simp [alookup, ha, ih hm]

/-- Lookup after a JS property write: the written key now maps to the new
value; every other key is unaffected. -/
theorem alookup_jsRecordSet {α : Type} (obj : List (String × α)) (k : String) (v : α)
    (k' : String) :
    alookup k' (jsRecordSet obj k v) = if k = k' then some v else alookup k' obj := by
  unfold jsRecordSet
  by_cases hmem : k ∈ obj.map Prod.fst
  · rw [if_pos hmem]
    by_cases hk : k = k'
    · subst hk
      rw [if_pos rfl, alookup_replace_self obj k v hmem]
    · rw [if_neg hk, alookup_replace_of_ne obj k v k' hk]
  · rw [if_neg hmem]
    by_cases hk : k = k'
    · subst hk
      rw [if_pos rfl, alookup_append_of_none _ (alookup_eq_none_of_not_mem _ _ hmem)]
      simp [alookup]
    · rw [if_neg hk]
      cases h : alookup k' obj with
      | some w => exact alookup_append_of_some _ h
      | none =>
        rw [alookup_append_of_none _ h]
        simp [alookup, hk]

/-- Lookup in a JS object spread, when the extension has unique keys:
the extension wins, the base fills the gaps. -/
theorem alookup_jsSpread {α : Type} (base ext : List (String × α)) (k : String)
    (hnd : (ext.map Prod.fst).Nodup) :
    alookup k (jsSpread base ext) =
      match alookup k ext with
      | some v => some v
      | none => alookup k base := by
  induction ext generalizing base with
  | nil => rfl
  | cons hd t ih =>
    obtain ⟨k0, v0⟩ := hd
    simp only [List.map_cons, List.nodup_cons] at hnd
    show alookup k (jsSpread (jsRecordSet base k0 v0) t) = _
    rw [ih _ hnd.2]
    by_cases hk : k0 = k
    · subst hk
      have ht : alookup k0 t = none := alookup_eq_none_of_not_mem _ _ hnd.1
      rw [ht]
      simp [alookup, alookup_jsRecordSet]
    · simp only [alookup, if_neg hk, alookup_jsRecordSet, if_neg hk]

/-! ## Uniform merging (C3) -/

/-- C3: for every draw configuration, the merged uniform set contains the
built-in `u_time` scalar and `u_resolution` 2-vector whenever the caller's
uniform map omits those names; a same-named caller entry wins; and every
other caller uniform is present unchanged. -/
theorem glsl_C3 (env : GLEnv) (startTime : Rat) (config : GraphicsProgramConfig)
    (hnd : (config.uniforms.map Prod.fst).Nodup) :
    alookup "u_time" (mergedUniforms env startTime config) =
      some ((alookup "u_time" config.uniforms).getD
        (.num ((env.nowMs - startTime) / 1000))) ∧
    alookup "u_resolution" (mergedUniforms env startTime config) =
      some ((alookup "u_resolution" config.uniforms).getD
        (.arr [env.canvasWidth, env.canvasHeight])) ∧
    (∀ n, n ≠ "u_time" → n ≠ "u_resolution" →
      alookup n (mergedUniforms env startTime config) = alookup n config.uniforms) := by
  unfold mergedUniforms
  refine ⟨?_, ?_, ?_⟩
  · rw [alookup_jsSpread _ _ _ hnd]
    cases h : alookup "u_time" config.uniforms with
    | some v => simp
    | none => simp [builtinUniforms, alookup]
  · rw [alookup_jsSpread _ _ _ hnd]
    cases h : alookup "u_resolution" config.uniforms with
    | some v => simp
    | none => simp [builtinUniforms, alookup]
  · intro n hn1 hn2
    rw [alookup_jsSpread _ _ _ hnd]
    cases h : alookup n config.uniforms with
    | some v => simp
    | none => simp [builtinUniforms, alookup, Ne.symm hn1, Ne.symm hn2]

/-- A host environment used to instantiate theorems on concrete runs:
everything succeeds, every location resolves. -/
def envT : GLEnv :=
  { compileOk := fun _ _ => true,
    shaderInfoLog := fun _ _ => "",
    linkOk := fun _ _ => true,
    programInfoLog := fun _ _ => "",
    uniformLoc := fun _ _ => some 0,
    attribLoc := fun _ _ => 0,
    fbStatusComplete := fun _ => true,
    pixel := fun _ _ _ _ => 0,
    canvasWidth := 300,
    canvasHeight := 150,
    nowMs := 0 }

/-- A configuration with an explicit `u_time` override plus one ordinary uniform. -/
def cfgW : GraphicsProgramConfig :=
  { vertexShader := "v",
    fragmentShader := "f",
    attributes := [],
    uniforms := [("u_time", .num 7), ("a", .num 1)],
    textures := [],
    count := 3 }

/-- C3 witness: the merge evaluated on a concrete override configuration. -/
theorem glsl_C3_witness :
    alookup "u_time" (mergedUniforms envT 0 cfgW) =
      some ((alookup "u_time" cfgW.uniforms).getD
        (.num ((envT.nowMs - 0) / 1000))) ∧
    alookup "u_resolution" (mergedUniforms envT 0 cfgW) =
      some ((alookup "u_resolution" cfgW.uniforms).getD
        (.arr [envT.canvasWidth, envT.canvasHeight])) ∧
    (∀ n, n ≠ "u_time" → n ≠ "u_resolution" →
      alookup n (mergedUniforms envT 0 cfgW) = alookup n cfgW.uniforms) :=
  glsl_C3 envT 0 cfgW (by decide)

/-! ## Uniform dispatch (C4, C5) -/

/-- C4: at a resolved location, a plain number goes through `uniform1f`, and a
sequence is dispatched solely by its length: 2, 3, 4 to the vector paths and
9, 16 to the matrix paths with transpose `false` (column-major). -/
theorem glsl_C4 (l : Nat) (name : String) :
    (∀ x : Rat, dispatchUniform (some l) name (.num x) = [GLCmd.uniform1f l x]) ∧
    (∀ xs : List Rat,
      (xs.length = 2 → dispatchUniform (some l) name (.arr xs) = [GLCmd.uniform2fv l xs]) ∧
      (xs.length = 3 → dispatchUniform (some l) name (.arr xs) = [GLCmd.uniform3fv l xs]) ∧
      (xs.length = 4 → dispatchUniform (some l) name (.arr xs) = [GLCmd.uniform4fv l xs]) ∧
      (xs.length = 9 →
        dispatchUniform (some l) name (.arr xs) = [GLCmd.uniformMatrix3fv l false xs]) ∧
      (xs.length = 16 →
        dispatchUniform (some l) name (.arr xs) = [GLCmd.uniformMatrix4fv l false xs])) := by
  refine ⟨fun x => rfl, fun xs => ⟨?_, ?_, ?_, ?_, ?_⟩⟩ <;>
    intro h <;> simp [dispatchUniform, h]

/-- C4 witness: each dispatch branch evaluated at a concrete value. -/
theorem glsl_C4_witness :
    dispatchUniform (some 5) "u" (.num 3) = [GLCmd.uniform1f 5 3] ∧
    dispatchUniform (some 5) "u" (.arr [1, 2]) = [GLCmd.uniform2fv 5 [1, 2]] ∧
    dispatchUniform (some 5) "u" (.arr [1, 2, 3]) = [GLCmd.uniform3fv 5 [1, 2, 3]] ∧
    dispatchUniform (some 5) "u" (.arr [1, 2, 3, 4]) = [GLCmd.uniform4fv 5 [1, 2, 3, 4]] ∧
    dispatchUniform (some 5) "u" (.arr [1, 2, 3, 4, 5, 6, 7, 8, 9]) =
      [GLCmd.uniformMatrix3fv 5 false [1, 2, 3, 4, 5, 6, 7, 8, 9]] ∧
    dispatchUniform (some 5) "u" (.arr [1, 2, 3, 4, 5, 6, 7, 8, 9, 10, 11, 12, 13, 14, 15, 16]) =
      [GLCmd.uniformMatrix4fv 5 false [1, 2, 3, 4, 5, 6, 7, 8, 9, 10, 11, 12, 13, 14, 15, 16]] :=
  ⟨(glsl_C4 5 "u").1 3,
   ((glsl_C4 5 "u").2 [1, 2]).1 rfl,
   ((glsl_C4 5 "u").2 [1, 2, 3]).2.1 rfl,
   ((glsl_C4 5 "u").2 [1, 2, 3, 4]).2.2.1 rfl,
   ((glsl_C4 5 "u").2 [1, 2, 3, 4, 5, 6, 7, 8, 9]).2.2.2.1 rfl,
   ((glsl_C4 5 "u").2 [1, 2, 3, 4, 5, 6, 7, 8, 9, 10, 11, 12, 13, 14, 15, 16]).2.2.2.2 rfl⟩

/-- C5 counterexample: a sequence of length 1 — inside the claimed
no-warning set `{1,2,3,4,9,16}` — nevertheless hits the warning branch and
produces no upload (the scalar path applies only to plain numbers, not to
length-1 sequences). -/
theorem glsl_C5_cex :
    dispatchUniform (some 0) "u" (.arr [1]) = [GLCmd.warn "u" 1] ∧
    (1 : Nat) ∈ ([1, 2, 3, 4, 9, 16] : List Nat) :=
  ⟨rfl, by decide⟩

/-- C5 (amended): a sequence-shaped uniform value warns, with no upload,
exactly when its length lies outside `{2,3,4,9,16}`; for lengths inside that
set a single non-warning upload command is issued. -/
theorem glsl_C5 (l : Nat) (name : String) (xs : List Rat) :
    (xs.length ∈ ([2, 3, 4, 9, 16] : List Nat) →
      ∃ c, dispatchUniform (some l) name (.arr xs) = [c] ∧ c.isWarn = false) ∧
    (xs.length ∉ ([2, 3, 4, 9, 16] : List Nat) →
      dispatchUniform (some l) name (.arr xs) = [GLCmd.warn name xs.length]) := by
  constructor
  · intro h
    simp only [List.mem_cons, List.not_mem_nil, or_false] at h
    rcases h with h | h | h | h | h
    · exact ⟨GLCmd.uniform2fv l xs, by simp [dispatchUniform, h], rfl⟩
    · exact ⟨GLCmd.uniform3fv l xs, by simp [dispatchUniform, h], rfl⟩
    · exact ⟨GLCmd.uniform4fv l xs, by simp [dispatchUniform, h], rfl⟩
    · exact ⟨GLCmd.uniformMatrix3fv l false xs, by simp [dispatchUniform, h], rfl⟩
    · exact ⟨GLCmd.uniformMatrix4fv l false xs, by simp [dispatchUniform, h], rfl⟩
  · intro h
    simp only [List.mem_cons, List.not_mem_nil, or_false, not_or] at h
    obtain ⟨h2, h3, h4, h9, h16⟩ := h
    simp only [dispatchUniform]

/-- C5 witness: a length inside the amended set uploads without warning; a
length outside it produces the warning command. -/
theorem glsl_C5_witness :
    (∃ c, dispatchUniform (some 0) "u" (.arr [1, 2]) = [c] ∧ c.isWarn = false) ∧
    dispatchUniform (some 0) "u" (.arr [1, 2, 3, 4, 5]) = [GLCmd.warn "u" 5] :=
  ⟨(glsl_C5 0 "u" [1, 2]).1 (by decide),
   (glsl_C5 0 "u" [1, 2, 3, 4, 5]).2 (by decide)⟩

/-! ## Program compilation and caching (C1, C2) -/

/-- `_createShader` allocates exactly one shader id and appends to the trace;
no other context state changes. -/
theorem createShader_state (env : GLEnv) (gl : GLState) (t : ShaderType) (s : String)
    (r : Except String Nat) (gl' : GLState)
    (h : _createShader env gl t s = (r, gl')) :
    ∃ tnew, gl' = { gl with nextShader := gl.nextShader + 1, trace := gl.trace ++ tnew } := by
  simp only [_createShader] at h
  split at h
  · cases h
    exact ⟨_, rfl⟩
  · cases h
    refine ⟨[GLCmd.createShader t gl.nextShader, GLCmd.shaderSource gl.nextShader s,
             GLCmd.compileShader gl.nextShader, GLCmd.deleteShader gl.nextShader], ?_⟩
    simp [List.append_assoc]

/-- A successful `_createShader` returns the freshly allocated shader id and
means the stage compiled. -/
theorem createShader_ok (env : GLEnv) (gl : GLState) (t : ShaderType) (s : String)
    (sh : Nat) (gl' : GLState) (h : _createShader env gl t s = (.ok sh, gl')) :
    env.compileOk t s = true ∧ sh = gl.nextShader := by
  simp only [_createShader] at h
  split at h
  · cases h
    exact ⟨by assumption, rfl⟩
  · cases h

/-- Characterization of a successful `_getProgram`: instance bookkeeping is
untouched except the trace, and the result is either a cache hit (state
unchanged) or a miss that appends a freshly allocated program under the
concatenated key. -/
theorem getProgram_ok_spec (env : GLEnv) (st : GLSLState) (vs fs : String) (p : Nat)
    (st' : GLSLState) (h : _getProgram env st vs fs = (.ok p, st')) :
    st'.startTime = st.startTime ∧
    st'.gl.nextBuffer = st.gl.nextBuffer ∧
    st'.gl.nextFramebuffer = st.gl.nextFramebuffer ∧
    st'.gl.boundFramebuffer = st.gl.boundFramebuffer ∧
    st'.gl.framebuffers = st.gl.framebuffers ∧
    (∃ t, st'.gl.trace = st.gl.trace ++ t) ∧
    ((alookup (vs ++ fs) st.programCache = some p ∧ st' = st) ∨
     (alookup (vs ++ fs) st.programCache = none ∧ p = st.gl.nextProgram ∧
      st'.programCache = st.programCache ++ [(vs ++ fs, p)] ∧
      st'.gl.nextProgram = p + 1)) := by
  simp only [_getProgram] at h
  split at h
  · cases h
    rename_i prog heq
    exact ⟨rfl, rfl, rfl, rfl, rfl, ⟨[], by simp⟩, Or.inl ⟨heq, rfl⟩⟩
  · rename_i heq
    split at h
    · cases h
    · rename_i vsh gl1 heq1
      split at h
      · cases h
      · rename_i fsh gl2 heq2
        obtain ⟨t1, hgl1⟩ := createShader_state _ _ _ _ _ _ heq1
        obtain ⟨t2, hgl2⟩ := createShader_state _ _ _ _ _ _ heq2
        split at h
        · cases h
          subst hgl1
          subst hgl2
          refine ⟨rfl, rfl, rfl, rfl, rfl,
            ⟨t1 ++ t2 ++
              [GLCmd.createProgram st.gl.nextProgram, GLCmd.attachShader st.gl.nextProgram vsh,
               GLCmd.attachShader st.gl.nextProgram fsh, GLCmd.linkProgram st.gl.nextProgram] ++
              [GLCmd.deleteShader vsh, GLCmd.deleteShader fsh], ?_⟩,
            Or.inr ⟨heq, ?_, rfl, ?_⟩⟩
          · simp [List.append_assoc]
          · simp
          · simp
        · cases h

/-- Invariant of the program cache: distinct keys hold distinct programs, and
every cached program id was allocated below the current program counter. It
holds for a fresh instance and is preserved by every operation. -/
def cacheWF (st : GLSLState) : Prop :=
  (∀ k1 k2 p, alookup k1 st.programCache = some p →
    alookup k2 st.programCache = some p → k1 = k2) ∧
  (∀ k p, alookup k st.programCache = some p → p < st.gl.nextProgram)

/-- The invariant holds for a freshly constructed instance. -/
theorem cacheWF_init (startTime : Rat) : cacheWF (initState startTime) := by
  constructor
  · intro k1 k2 p h1 h2
    simp [initState, alookup] at h1
  · intro k p h
    simp [initState, alookup] at h

/-- Lookup in a cache extended by one new entry. -/
theorem alookup_snoc {α : Type} (l : List (String × α)) (key : String) (v : α)
    (k : String) :
    alookup k (l ++ [(key, v)]) =
      match alookup k l with
      | some w => some w
      | none => if key = k then some v else none := by
  cases h : alookup k l with
  | some w => rw [alookup_append_of_some _ h]
  | none =>
    rw [alookup_append_of_none _ h]
    simp [alookup]

/-- A successful `_getProgram` preserves the cache invariant and leaves the
requested key bound to the returned program. -/
theorem cacheWF_after (env : GLEnv) (st : GLSLState) (vs fs : String) (p : Nat)
    (st' : GLSLState) (hwf : cacheWF st)
    (h : _getProgram env st vs fs = (.ok p, st')) :
    cacheWF st' ∧ alookup (vs ++ fs) st'.programCache = some p := by
  obtain ⟨-, -, -, -, -, -, hcase⟩ := getProgram_ok_spec env st vs fs p st' h
  rcases hcase with ⟨hhit, rfl⟩ | ⟨hmiss, hp, hcache, hnp⟩
  · exact ⟨hwf, hhit⟩
  · obtain ⟨hinj, hbound⟩ := hwf
    constructor
    · constructor
      · intro k1 k2 q h1 h2
        rw [hcache, alookup_snoc] at h1 h2
        cases hl1 : alookup k1 st.programCache with
        | some w1 =>
          rw [hl1] at h1
          cases hl2 : alookup k2 st.programCache with
          | some w2 =>
            rw [hl2] at h2
            cases h1; cases h2
            exact hinj k1 k2 q hl1 hl2
          | none =>
            rw [hl2] at h2
            by_cases hk2 : vs ++ fs = k2
            · rw [if_pos hk2] at h2
              have e1 := Option.some.inj h1
              have e2 := Option.some.inj h2
              have hb := hbound k1 w1 hl1
              exact absurd hb (by omega)
            · rw [if_neg hk2] at h2
              cases h2
        | none =>
          rw [hl1] at h1
          by_cases hk1 : vs ++ fs = k1
          · rw [if_pos hk1] at h1
            cases hl2 : alookup k2 st.programCache with
            | some w2 =>
              rw [hl2] at h2
              have e1 := Option.some.inj h1
              have e2 := Option.some.inj h2
              have hb := hbound k2 w2 hl2
              exact absurd hb (by omega)
            | none =>
              rw [hl2] at h2
              by_cases hk2 : vs ++ fs = k2
              · rw [← hk1, ← hk2]
              · rw [if_neg hk2] at h2
                cases h2
          · rw [if_neg hk1] at h1
            cases h1
      · intro k q hq
        rw [hcache, alookup_snoc] at hq
        cases hl : alookup k st.programCache with
        | some w =>
          rw [hl] at hq
          cases hq
          have := hbound k q hl
          omega
        | none =>
          rw [hl] at hq
          by_cases hk : vs ++ fs = k
          · rw [if_pos hk] at hq
            cases hq
            omega
          · rw [if_neg hk] at hq
            cases hq
    · rw [hcache, alookup_snoc, hmiss, if_pos rfl]

/-- C1: resolving two source pairs in sequence on a well-formed instance
yields the same program exactly when the concatenations coincide: identical
concatenated text gives the identical cached program, different concatenated
text gives distinct program objects. -/
theorem glsl_C1 (env : GLEnv) (st st1 st2 : GLSLState) (vs1 fs1 vs2 fs2 : String)
    (p1 p2 : Nat) (hwf : cacheWF st)
    (h1 : _getProgram env st vs1 fs1 = (.ok p1, st1))
    (h2 : _getProgram env st1 vs2 fs2 = (.ok p2, st2)) :
    (vs1 ++ fs1 = vs2 ++ fs2 → p1 = p2) ∧
    (vs1 ++ fs1 ≠ vs2 ++ fs2 → p1 ≠ p2) := by
  obtain ⟨hwf1, hk1⟩ := cacheWF_after env st vs1 fs1 p1 st1 hwf h1
  obtain ⟨-, -, -, -, -, -, hcase⟩ := getProgram_ok_spec env st1 vs2 fs2 p2 st2 h2
  constructor
  · intro heq
    rcases hcase with ⟨hhit, -⟩ | ⟨hmiss, -, -, -⟩
    · rw [← heq] at hhit
      rw [hk1] at hhit
      cases hhit
      rfl
    · rw [← heq, hk1] at hmiss
      cases hmiss
  · intro hne
    rcases hcase with ⟨hhit, -⟩ | ⟨hmiss, hp2, -, -⟩
    · intro hp
      exact hne (hwf1.1 (vs1 ++ fs1) (vs2 ++ fs2) p1 hk1 (hp ▸ hhit))
    · have := hwf1.2 (vs1 ++ fs1) p1 hk1
      omega

/-- `sub` occurs as a contiguous substring of `s`. -/
def containsStr (s sub : String) : Prop := ∃ p q, s = p ++ sub ++ q

/-- The native diagnostic log of the stage that fails first during a resolve
(vertex compile, then fragment compile, then link). -/
def failLog (env : GLEnv) (vs fs : String) : String :=
  if env.compileOk .vertex vs = false then env.shaderInfoLog .vertex vs
  else if env.compileOk .fragment fs = false then env.shaderInfoLog .fragment fs
  else env.programInfoLog vs fs

/-- C2: on a cache miss where a stage fails to compile or the program fails
to link, `_getProgram` throws an error carrying the native diagnostic log of
the failing stage, and the program cache is left unchanged. -/
theorem glsl_C2 (env : GLEnv) (st : GLSLState) (vs fs : String)
    (hmiss : alookup (vs ++ fs) st.programCache = none)
    (hfail : env.compileOk .vertex vs = false ∨ env.compileOk .fragment fs = false ∨
      env.linkOk vs fs = false) :
    ∃ e st', _getProgram env st vs fs = (.error e, st') ∧
      st'.programCache = st.programCache ∧ containsStr e (failLog env vs fs) := by
  simp only [_getProgram, hmiss]
  cases hv : env.compileOk .vertex vs with
  | false =>
    simp only [_createShader, hv, Bool.false_eq_true, if_false]
    exact ⟨_, _, rfl, rfl, "Error compiling shader: ", "",
      by simp [failLog, hv]⟩
  | true =>
    simp only [_createShader, hv, if_true]
    cases hf : env.compileOk .fragment fs with
    | false =>
      simp only [hf, Bool.false_eq_true, if_false]
      exact ⟨_, _, rfl, rfl, "Error compiling shader: ", "",
        by simp [failLog, hv, hf]⟩
    | true =>
      simp only [hf, if_true]
      cases hl : env.linkOk vs fs with
      | false =>
        simp only [hl, Bool.false_eq_true, if_false]
        exact ⟨_, _, rfl, rfl, "Error linking program: ", "",
          by simp [failLog, hv, hf]⟩
      | true =>
        rcases hfail with h | h | h
        · rw [hv] at h; cases h
        · rw [hf] at h; cases h
        · rw [hl] at h; cases h

/-- A host environment where every shader fails to compile and every
framebuffer is incomplete. -/
def envF : GLEnv :=
  { envT with
    compileOk := fun _ _ => false,
    shaderInfoLog := fun _ _ => "SHADER LOG",
    fbStatusComplete := fun _ => false }

/-- C2 witness: a concrete failing resolve on a fresh instance. -/
theorem glsl_C2_witness :
    ∃ e st', _getProgram envF (initState 0) "v" "f" = (.error e, st') ∧
      st'.programCache = (initState 0).programCache ∧
      containsStr e (failLog envF "v" "f") :=
  glsl_C2 envF (initState 0) "v" "f" rfl (Or.inl rfl)

/-- The state after resolving the pair `("v1", "f1")` on a fresh instance. -/
def stW1 : GLSLState := (_getProgram envT (initState 0) "v1" "f1").2

/-- The state after then resolving the pair `("v2", "f2")`. -/
def stW2 : GLSLState := (_getProgram envT stW1 "v2" "f2").2

/-- C1 witness: two concrete sequential resolves of distinct source pairs. -/
theorem glsl_C1_witness :
    ("v1" ++ "f1" = "v2" ++ "f2" → (0 : Nat) = 1) ∧
    ("v1" ++ "f1" ≠ "v2" ++ "f2" → (0 : Nat) ≠ 1) :=
  glsl_C1 envT (initState 0) stW1 stW2 "v1" "f1" "v2" "f2" 0 1
    (cacheWF_init 0) rfl rfl

/-! ## The draw call (C6, C7) -/

/-- `_getProgram` never touches the buffer-id counter, whatever its outcome. -/
theorem getProgram_nextBuffer (env : GLEnv) (st : GLSLState) (vs fs : String)
    (r : Except String Nat) (st' : GLSLState)
    (h : _getProgram env st vs fs = (r, st')) :
    st'.gl.nextBuffer = st.gl.nextBuffer := by
  simp only [_getProgram] at h
  split at h
  · cases h
    rfl
  · split at h
    · rename_i e gl1 heq1
      cases h
      obtain ⟨t1, rfl⟩ := createShader_state _ _ _ _ _ _ heq1
      rfl
    · rename_i vsh gl1 heq1
      split at h
      · rename_i e gl2 heq2
        cases h
        obtain ⟨t1, hgl1⟩ := createShader_state _ _ _ _ _ _ heq1
        obtain ⟨t2, hgl2⟩ := createShader_state _ _ _ _ _ _ heq2
        subst hgl1
        subst hgl2
        rfl
      · rename_i fsh gl2 heq2
        obtain ⟨t1, hgl1⟩ := createShader_state _ _ _ _ _ _ heq1
        obtain ⟨t2, hgl2⟩ := createShader_state _ _ _ _ _ _ heq2
        split at h
        · cases h
          subst hgl1
          subst hgl2
          rfl
        · cases h
          subst hgl1
          subst hgl2
          rfl

/-- Full characterization of a successful `draw`: the resolved program is
activated and the trace gains exactly the attribute, texture, uniform,
framebuffer and draw-submission commands, in source order. -/
theorem draw_ok_spec (env : GLEnv) (st : GLSLState) (config : GraphicsProgramConfig)
    (st' : GLSLState) (h : draw env st config = (.ok (), st')) :
    ∃ program st1,
      _getProgram env st config.vertexShader config.fragmentShader = (.ok program, st1) ∧
      st'.startTime = st1.startTime ∧
      st'.programCache = st1.programCache ∧
      st'.gl.nextBuffer = st1.gl.nextBuffer ∧
      st'.gl.boundFramebuffer = jsOrNull config.output ∧
      st'.gl.trace = st1.gl.trace ++ [GLCmd.useProgram program] ++
        attributeCmds env program config.attributes ++
        bindTextures env program config.textures 0 ++
        uniformCmds env program (mergedUniforms env st1.startTime config) ++
        [GLCmd.bindFramebuffer (jsOrNull config.output),
         GLCmd.drawArrays
           (match config.primitive with | some p => p | none => Primitive.TRIANGLES)
           0 config.count] := by
  simp only [draw] at h
  split at h
  · cases h
  · rename_i program st1 heq
    cases h
    exact ⟨program, st1, heq, rfl, rfl, rfl, rfl, by simp [List.append_assoc]⟩

/-- The texture loop starting at unit `u` numbers the entries `u, u+1, ...`
in list order. -/
theorem bindTextures_enum (env : GLEnv) (program : Nat)
    (textures : List (String × Nat)) (u : Nat) :
    bindTextures env program textures u =
      joinAll ((enumFromN u textures).map fun q =>
        [GLCmd.activeTexture q.1, GLCmd.bindTexture (some q.2.2),
         GLCmd.uniform1i (env.uniformLoc program q.2.1) q.1]) := by
  induction textures generalizing u with
  | nil => rfl
  | cons hd t ih =>
    obtain ⟨name, tex⟩ := hd
    simp [bindTextures, enumFromN, joinAll, ih]

/-- C6: in every successful draw, the trace contains the texture-binding
block in which the i-th entry of `config.textures` (map-iteration order,
from 0) activates unit i, binds its texture there, and sets its sampler
uniform to the integer i — units are sequential from 0 with no gaps. -/
theorem glsl_C6 (env : GLEnv) (st : GLSLState) (config : GraphicsProgramConfig)
    (st' : GLSLState) (h : draw env st config = (.ok (), st')) :
    ∃ program pre post,
      st'.gl.trace = st.gl.trace ++ pre ++
        joinAll ((enumFromN 0 config.textures).map fun q =>
          [GLCmd.activeTexture q.1, GLCmd.bindTexture (some q.2.2),
           GLCmd.uniform1i (env.uniformLoc program q.2.1) q.1]) ++ post := by
  obtain ⟨program, st1, heq, -, -, -, -, htrace⟩ := draw_ok_spec env st config st' h
  obtain ⟨-, -, -, -, -, ⟨t0, ht0⟩, -⟩ := getProgram_ok_spec _ _ _ _ _ _ heq
  refine ⟨program,
    t0 ++ [GLCmd.useProgram program] ++ attributeCmds env program config.attributes,
    uniformCmds env program (mergedUniforms env st1.startTime config) ++
      [GLCmd.bindFramebuffer (jsOrNull config.output),
       GLCmd.drawArrays
         (match config.primitive with | some p => p | none => Primitive.TRIANGLES)
         0 config.count], ?_⟩
  rw [htrace, ht0, ← bindTextures_enum]
  simp [List.append_assoc]

/-- C7: every successful draw ends by binding the render target — the default
surface (null) when `config.output` is unset or null, the supplied
framebuffer otherwise — and submitting `drawArrays` with the configured
primitive (default `TRIANGLES`), vertex offset 0, and `config.count`
vertices. -/
theorem glsl_C7 (env : GLEnv) (st : GLSLState) (config : GraphicsProgramConfig)
    (st' : GLSLState) (h : draw env st config = (.ok (), st')) :
    ∃ target mid,
      st'.gl.trace = st.gl.trace ++ mid ++
        [GLCmd.bindFramebuffer target,
         GLCmd.drawArrays
           (match config.primitive with | some p => p | none => Primitive.TRIANGLES)
           0 config.count] ∧
      st'.gl.boundFramebuffer = target ∧
      ((config.output = none ∨ config.output = some none) → target = none) ∧
      (∀ fb, config.output = some (some fb) → target = some fb) := by
  obtain ⟨program, st1, heq, -, -, -, hbound, htrace⟩ := draw_ok_spec env st config st' h
  obtain ⟨-, -, -, -, -, ⟨t0, ht0⟩, -⟩ := getProgram_ok_spec _ _ _ _ _ _ heq
  refine ⟨jsOrNull config.output,
    t0 ++ [GLCmd.useProgram program] ++ attributeCmds env program config.attributes ++
      bindTextures env program config.textures 0 ++
      uniformCmds env program (mergedUniforms env st1.startTime config), ?_, hbound, ?_, ?_⟩
  · rw [htrace, ht0]
    simp [List.append_assoc]
  · intro hc
    rcases hc with hc | hc <;> rw [hc] <;> rfl
  · intro fb hc
    rw [hc]
    rfl

/-! ## Synchronous readback (C8, C9) -/

/-- C8: `readData` throws exactly when the temporary framebuffer is
incomplete; on success it returns `width*height*4` floats and has unbound
(`null`) and deleted the temporary framebuffer before returning. -/
theorem glsl_C8 (env : GLEnv) (st : GLSLState) (texture width height : Nat) :
    ((∃ e st', readData env st texture width height = (.error e, st')) ↔
      env.fbStatusComplete texture = false) ∧
    (∀ buffer st', readData env st texture width height = (.ok buffer, st') →
      buffer.length = width * height * 4 ∧
      st'.gl.boundFramebuffer = none ∧
      st.gl.nextFramebuffer ∉ st'.gl.framebuffers) := by
  cases hc : env.fbStatusComplete texture with
  | true =>
    constructor
    · constructor
      · rintro ⟨e, st', hr⟩
        simp [readData, hc] at hr
      · intro hfalse
        cases hfalse
    · intro buffer st' hr
      simp only [readData, hc, if_true] at hr
      cases hr
      refine ⟨by simp, rfl, ?_⟩
      simp [List.mem_filter]
  | false =>
    constructor
    · constructor
      · intro _
        rfl
      · intro _
        refine ⟨"Framebuffer is not complete for reading data.",
          { st with gl := { st.gl with
              nextFramebuffer := st.gl.nextFramebuffer + 1,
              framebuffers := st.gl.framebuffers ++ [st.gl.nextFramebuffer],
              boundFramebuffer := some st.gl.nextFramebuffer,
              trace := st.gl.trace ++
                [GLCmd.createFramebuffer st.gl.nextFramebuffer,
                 GLCmd.bindFramebuffer (some st.gl.nextFramebuffer),
                 GLCmd.framebufferTexture2D texture] } }, ?_⟩
        simp [readData, hc]
    · intro buffer st' hr
      simp [readData, hc] at hr
  
/-- C8 witness: a concrete successful readback of a 2-by-3 texture. -/
theorem glsl_C8_witness :
    ((List.range (2 * 3 * 4)).map (envT.pixel 5 2 3)).length = 2 * 3 * 4 ∧
    (readData envT (initState 0) 5 2 3).2.gl.boundFramebuffer = none ∧
    (initState 0).gl.nextFramebuffer ∉ (readData envT (initState 0) 5 2 3).2.gl.framebuffers :=
  (glsl_C8 envT (initState 0) 5 2 3).2
    ((List.range (2 * 3 * 4)).map (envT.pixel 5 2 3))
    (readData envT (initState 0) 5 2 3).2 rfl

/-- C9: when `readData` throws on an incomplete framebuffer, no cleanup
happens — the fresh framebuffer is still the current binding, it is never
deleted (still live), and the trace shows no unbind or delete call. -/
theorem glsl_C9 (env : GLEnv) (st : GLSLState) (texture width height : Nat)
    (e : String) (st' : GLSLState)
    (h : readData env st texture width height = (.error e, st')) :
    st'.gl.boundFramebuffer = some st.gl.nextFramebuffer ∧
    st.gl.nextFramebuffer ∈ st'.gl.framebuffers ∧
    st'.gl.trace = st.gl.trace ++
      [GLCmd.createFramebuffer st.gl.nextFramebuffer,
       GLCmd.bindFramebuffer (some st.gl.nextFramebuffer),
       GLCmd.framebufferTexture2D texture] := by
  simp only [readData] at h
  split at h
  · cases h
  · cases h
    exact ⟨rfl, by simp, rfl⟩

/-- C9 witness: a concrete failed readback under an always-incomplete host. -/
theorem glsl_C9_witness :
    (readData envF (initState 0) 5 1 1).2.gl.boundFramebuffer =
      some (initState 0).gl.nextFramebuffer ∧
    (initState 0).gl.nextFramebuffer ∈ (readData envF (initState 0) 5 1 1).2.gl.framebuffers ∧
    (readData envF (initState 0) 5 1 1).2.gl.trace = (initState 0).gl.trace ++
      [GLCmd.createFramebuffer (initState 0).gl.nextFramebuffer,
       GLCmd.bindFramebuffer (some (initState 0).gl.nextFramebuffer),
       GLCmd.framebufferTexture2D 5] :=
  glsl_C9 envF (initState 0) 5 1 1 "Framebuffer is not complete for reading data."
    (readData envF (initState 0) 5 1 1).2 rfl

/-! ## The display convenience path (C10) -/

/-- `draw` never touches the buffer-id counter, whatever its outcome. -/
theorem draw_nextBuffer (env : GLEnv) (st : GLSLState) (config : GraphicsProgramConfig) :
    ((draw env st config).2).gl.nextBuffer = st.gl.nextBuffer := by
  simp only [draw]
  split
  · rename_i e st1 heq
    exact getProgram_nextBuffer _ _ _ _ _ _ heq
  · rename_i program st1 heq
    show st1.gl.nextBuffer = st.gl.nextBuffer
    exact getProgram_nextBuffer _ _ _ _ _ _ heq

/-- Modelled from the claim: `display texture` is one `draw` call with the
fixed internal shader pair, a freshly created quad buffer
`[-1,-1,1,-1,-1,1,1,1]` bound as `a_position` with component size 2, the
texture as sampler `u_texture`, an empty caller uniform map, vertex count 4,
`TRIANGLE_STRIP` topology and null output (the default surface). -/
def displaySpec (env : GLEnv) (st : GLSLState) (texture : Nat) :
    Except String Unit × GLSLState :=
  let pr := createBuffer st [-1, -1, 1, -1, -1, 1, 1, 1]
  draw env pr.2
    { vertexShader := displayVertexSource,
      fragmentShader := displayFragmentSource,
      attributes := [("a_position", { buffer := pr.1, size := 2 })],
      textures := [("u_texture", texture)],
      uniforms := [],
      count := 4,
      primitive := some .TRIANGLE_STRIP,
      output := some none }

/-- C10: `display` is exactly the claimed single `draw` call over a quad
buffer obtained from `createBuffer`, and each call allocates exactly one
fresh buffer (the buffer counter advances by one), so no buffer is cached or
reused across calls. -/
theorem glsl_C10 (env : GLEnv) (st : GLSLState) (texture : Nat) :
    display env st texture = displaySpec env st texture ∧
    (display env st texture).2.gl.nextBuffer = st.gl.nextBuffer + 1 := by
  constructor
  · rfl
  · simp only [display]
    rw [draw_nextBuffer]
    rfl

/-- A concrete draw configuration with one texture binding. -/
def cfgD : GraphicsProgramConfig :=
  { vertexShader := "v",
    fragmentShader := "f",
    attributes := [],
    uniforms := [],
    textures := [("t0", 7)],
    count := 4 }

/-- The state after a concrete successful draw on a fresh instance. -/
def stD : GLSLState := (draw envT (initState 0) cfgD).2

/-- C6 witness: the texture-binding block of a concrete draw. -/
theorem glsl_C6_witness :
    ∃ program pre post,
      stD.gl.trace = (initState 0).gl.trace ++ pre ++
        joinAll ((enumFromN 0 cfgD.textures).map fun q =>
          [GLCmd.activeTexture q.1, GLCmd.bindTexture (some q.2.2),
           GLCmd.uniform1i (envT.uniformLoc program q.2.1) q.1]) ++ post :=
  glsl_C6 envT (initState 0) cfgD stD rfl

/-- C7 witness: the output selection and submission of a concrete draw. -/
theorem glsl_C7_witness :
    ∃ target mid,
      stD.gl.trace = (initState 0).gl.trace ++ mid ++
        [GLCmd.bindFramebuffer target,
         GLCmd.drawArrays
           (match cfgD.primitive with | some p => p | none => Primitive.TRIANGLES)
           0 cfgD.count] ∧
      stD.gl.boundFramebuffer = target ∧
      ((cfgD.output = none ∨ cfgD.output = some none) → target = none) ∧
      (∀ fb, cfgD.output = some (some fb) → target = some fb) :=
  glsl_C7 envT (initState 0) cfgD stD rfl
